import Mathlib

/-!
Verification of the ollama-shim authenticating reverse proxy.

The development shallowly embeds the request pipeline of `src/proxy.rs`
(`proxy_handler`, `forward_request`) and the key-override logic of
`src/config.rs` (`AppConfig::apply_overrides`).  HTTP-library effects are
modelled explicitly:

* a header value is either representable as text (`HeaderValue::to_str`
  succeeds) or not;
* the upstream round trip (`reqwest` `send`) is an oracle
  `OutboundRequest → SendResult` passed as a parameter, so theorems can
  quantify over upstream behaviour and over transport failures;
* the fallibility of the framework's response builder
  (`Response::builder().body(...)` returning `Result`) and of reading the
  upstream body (`resp.bytes()`) are recorded on the upstream result.

The embedded handler additionally returns the outbound request(s) it
dispatched, so "no outbound call is made" is the statement that this
trace is empty.
-/

/-- A header value as stored by the HTTP layer: either representable as
text (the library's `to_str` succeeds, yielding the string) or a
binary/malformed value on which `to_str` fails. -/
inductive HVal where
  | text (s : String) : HVal
  | bin : HVal
deriving DecidableEq

/-- `HeaderValue::to_str`: succeeds exactly on text-representable values. -/
def HVal.toStr : HVal → Option String
  | .text s => some s
  | .bin => none

/-- A header multimap, in iteration order.  Names are kept as written;
the HTTP layer treats them case-insensitively, which the embedding
realises by lowercasing at every comparison. -/
abbrev Headers := List (String × HVal)

/-- ASCII-lowercase a header name, as the HTTP layer normalizes names. -/
def lowerName (s : String) : String :=
  String.mk (s.data.map Char.toLower)

/-- `HeaderMap::get`: case-insensitive lookup of the first value for a
name (the name argument is given already lowercased). -/
def headerGet (hs : Headers) (name : String) : Option HVal :=
  (hs.find? (fun p => lowerName p.1 == name)).map (·.2)

/-- Request and response bodies are byte strings. -/
abbrev Bytes := List Nat

/-- Bytes of a Rust string literal used as a response body. -/
def strBytes (s : String) : Bytes :=
  s.toUTF8.toList.map (fun b => b.toNat)

/-- The inbound body cap of `proxy.rs` line 20: `8 * 1024 * 1024`. -/
def bodyLimit : Nat := 8 * 1024 * 1024

/-- `axum::body::to_bytes(body, limit)`: buffers the whole body, failing
when its length exceeds the limit. -/
def toBytesLimited (b : Bytes) (limit : Nat) : Option Bytes :=
  if b.length ≤ limit then some b else none

/-- The part of `AppState` (state.rs) the pipeline reads: the key set and
the upstream base URL.  The pooled client is the `send` oracle below. -/
structure AppState where
  valid_keys : List String
  ollama_url : String

/-- The inbound request as seen by `proxy_handler`: method, the
wildcard-captured path suffix after `/v1/`, headers, and raw body. -/
structure InboundRequest where
  method : String
  path : String
  headers : Headers
  body : Bytes

/-- The outbound request assembled by `forward_request`. -/
structure OutboundRequest where
  method : String
  url : String
  headers : List (String × String)
  body : Bytes
deriving DecidableEq

/-- A successful upstream round trip: status and headers of the upstream
response, the result of reading its body (`resp.bytes()`, which can
fail), and whether the framework's response builder succeeds
(`Response::builder(...).body(...)` returns `Ok`). -/
structure UpstreamOk where
  status : Nat
  headers : Headers
  bodyRead : Option Bytes
  assemblyOk : Bool

/-- Result of `req.send().await`: a round trip or a transport failure. -/
inductive SendResult where
  | ok (r : UpstreamOk)
  | err

/-- The client-facing response produced by the pipeline. -/
structure ClientResponse where
  status : Nat
  headers : List (String × String)
  body : Bytes
deriving DecidableEq

/-- Characters allowed in an HTTP method token (RFC 7230 tchar), the
validity condition of `Method::from_bytes`. -/
def methodTokenChar (c : Char) : Bool :=
  ("!#$%&*+-.^_|~".toList.contains c) || c == '\x27' || c == '\x60' ||
    ('0' ≤ c && c ≤ '9') || ('A' ≤ c && c ≤ 'Z') || ('a' ≤ c && c ≤ 'z')

/-- `reqwest::Method::from_bytes`: succeeds exactly on nonempty token
strings, returning the method unchanged. -/
def reqwestMethodFromBytes (m : String) : Option String :=
  if m.length > 0 && m.toList.all methodTokenChar then some m else none

/-- `StatusCode::from_u16`: succeeds exactly on codes in `100..=999`. -/
def statusFromU16 (n : Nat) : Option Nat :=
  if 100 ≤ n ∧ n < 1000 then some n else none

/-- `str::trim_end_matches('/')` as used on the base URL: remove every
trailing slash. -/
def trimEndSlashes (s : String) : String :=
  String.mk ((s.data.reverse.dropWhile (fun c => c == '/')).reverse)

/-- The header-forwarding loop of `forward_request` (proxy.rs 54-61):
skip `host` and `authorization`, keep each remaining header whose value
is text-representable, silently drop the rest. -/
def outboundHeaders (hs : Headers) : List (String × String) :=
  hs.filterMap (fun p =>
    if lowerName p.1 == "host" || lowerName p.1 == "authorization" then none
    else (p.2.toStr).map (fun v => (p.1, v)))

/-- The response-header loop of `forward_request` (proxy.rs 68-72): keep
each upstream header whose value is text-representable. -/
def textHeaders (hs : Headers) : List (String × String) :=
  hs.filterMap (fun p => (p.2.toStr).map (fun v => (p.1, v)))

/-- `forward_request` (proxy.rs 39-91), instrumented to also return the
outbound request it dispatches. -/
def forward_request (state : AppState) (method : String) (path : String)
    (headers : Headers) (body : Bytes)
    (send : OutboundRequest → SendResult) : ClientResponse × OutboundRequest :=
  let base := trimEndSlashes state.ollama_url
  let url := base ++ "/v1/" ++ path
  let reqwest_method := (reqwestMethodFromBytes method).getD "GET"
  let outReq : OutboundRequest :=
    { method := reqwest_method, url := url,
      headers := outboundHeaders headers, body := body }
  match send outReq with
  | .ok resp =>
      let status_code := (statusFromU16 resp.status).getD 200
      let respHeaders := textHeaders resp.headers
      let bytes := resp.bodyRead.getD []
      let clientResp : ClientResponse :=
        if resp.assemblyOk then
          { status := status_code, headers := respHeaders, body := bytes }
        else
          { status := 500, headers := [], body := [] }
      (clientResp, outReq)
  | .err =>
      ({ status := 502, headers := [],
         body := strBytes "Upstream request failed" }, outReq)

/-- Response of `(StatusCode::UNAUTHORIZED, "Unauthorized").into_response()`;
the tuple `IntoResponse` impl adds a plain-text content type. -/
def unauthorizedResponse : ClientResponse :=
  { status := 401,
    headers := [("content-type", "text/plain; charset=utf-8")],
    body := strBytes "Unauthorized" }

/-- Response of `(StatusCode::BAD_REQUEST, "Failed to read body").into_response()`. -/
def badRequestResponse : ClientResponse :=
  { status := 400,
    headers := [("content-type", "text/plain; charset=utf-8")],
    body := strBytes "Failed to read body" }

/-- `str::strip_prefix` over character lists: the remainder of `s` after
the literal prefix `p`, when `p` is a prefix. -/
def stripPre (p s : List Char) : Option (List Char) :=
  match p, s with
  | [], rest => some rest
  | _ :: _, [] => none
  | a :: p, b :: s => if a == b then stripPre p s else none

/-- The bearer-token extraction of `proxy_handler` (proxy.rs 26-28):
`headers.get("authorization")`, then `to_str`, then
`strip_prefix("Bearer ")`. -/
def bearerKey (hs : Headers) : Option String :=
  match headerGet hs "authorization" with
  | some v =>
      match v.toStr with
      | some s =>
          match stripPre "Bearer ".data s.data with
          | some rest => some (String.mk rest)
          | none => none
      | none => none
  | none => none

/-- `proxy_handler` (proxy.rs 11-37), instrumented to also return the
list of outbound requests dispatched (empty or a singleton). -/
def proxy_handler (state : AppState) (req : InboundRequest)
    (send : OutboundRequest → SendResult) :
    ClientResponse × List OutboundRequest :=
  match toBytesLimited req.body bodyLimit with
  | none => (badRequestResponse, [])
  | some body_bytes =>
      match bearerKey req.headers with
      | some key =>
          if state.valid_keys.contains key then
            let r := forward_request state req.method req.path
              req.headers body_bytes send
            (r.1, [r.2])
          else (unauthorizedResponse, [])
      | none => (unauthorizedResponse, [])

/-- The CLI override record of `config.rs` (`ConfigOverrides`), restricted
to the key sources; the path strings are resolved by the loader oracles
below. -/
structure ConfigOverrides where
  api_keys_sqlite : Option String
  api_keys_file : Option String
  api_keys : Option (List String)

/-- The key-override branch of `AppConfig::apply_overrides`
(config.rs 107-122).  `loadSqlite` and `loadFile` stand for
`load_keys_from_sqlite` / `load_keys_from_file` resolving a path to the
keys it contains. -/
def apply_overrides_keys (loadSqlite loadFile : String → List String)
    (cur : List String) (o : ConfigOverrides) : List String :=
  if o.api_keys_sqlite.isSome || o.api_keys_file.isSome || o.api_keys.isSome then
    match o.api_keys_sqlite with
    | some path => loadSqlite path
    | none =>
        match o.api_keys_file with
        | some path => loadFile path
        | none =>
            match o.api_keys with
            | some list => list
            | none => []
  else cur

/-! ### Helper lemmas -/

/-- `List.contains` on strings agrees with membership. -/
theorem contains_iff_mem (l : List String) (a : String) :
    l.contains a = true ↔ a ∈ l := by
  induction l with
  | nil => simp
  | cons x xs ih => simp [List.contains_cons, ih]

/-- Buffering succeeds on a body within the limit. -/
theorem toBytesLimited_of_le {b : Bytes} {limit : Nat} (h : b.length ≤ limit) :
    toBytesLimited b limit = some b := by
  simp [toBytesLimited, h]

/-- Buffering fails on a body over the limit. -/
theorem toBytesLimited_of_gt {b : Bytes} {limit : Nat} (h : limit < b.length) :
    toBytesLimited b limit = none := by
  simp [toBytesLimited]
  omega

/-- On an authorized request within the body limit, `proxy_handler`
defers to `forward_request` and dispatches exactly its outbound
request. -/
theorem proxy_handler_authorized (state : AppState) (req : InboundRequest)
    (send : OutboundRequest → SendResult) (k : String)
    (hbody : req.body.length ≤ bodyLimit)
    (hkey : bearerKey req.headers = some k)
    (hmem : k ∈ state.valid_keys) :
    proxy_handler state req send =
      ((forward_request state req.method req.path req.headers req.body send).1,
       [(forward_request state req.method req.path req.headers req.body send).2]) := by
  have hc : state.valid_keys.contains k = true :=
    (contains_iff_mem _ _).mpr hmem
  simp [proxy_handler, toBytesLimited_of_le hbody, hkey, hc, hmem]

/-- On a request failing the bearer check (no extractable key, or key not
in the set) within the body limit, `proxy_handler` rejects with the
fixed 401 response and dispatches nothing. -/
theorem proxy_handler_reject (state : AppState) (req : InboundRequest)
    (send : OutboundRequest → SendResult)
    (hbody : req.body.length ≤ bodyLimit)
    (hauth : ∀ k ∈ state.valid_keys, bearerKey req.headers ≠ some k) :
    proxy_handler state req send = (unauthorizedResponse, []) := by
  cases hk : bearerKey req.headers with
  | none => simp [proxy_handler, toBytesLimited_of_le hbody, hk]
  | some k =>
      have hnm : k ∉ state.valid_keys := fun hm => absurd hk (hauth k hm)
      have hc : state.valid_keys.contains k = false := by
        cases hck : state.valid_keys.contains k with
        | false => rfl
        | true => exact absurd ((contains_iff_mem _ _).mp hck) hnm
      simp [proxy_handler, toBytesLimited_of_le hbody, hk, hc, hnm]

/-- On a request whose body exceeds the cap, `proxy_handler` answers 400
and dispatches nothing, regardless of the headers. -/
theorem proxy_handler_oversize (state : AppState) (req : InboundRequest)
    (send : OutboundRequest → SendResult)
    (h : bodyLimit < req.body.length) :
    proxy_handler state req send = (badRequestResponse, []) := by
  simp [proxy_handler, toBytesLimited_of_gt h]

/-- The outbound request `forward_request` dispatches, independent of the
upstream's behaviour. -/
theorem forward_request_snd (state : AppState) (method path : String)
    (headers : Headers) (body : Bytes) (send : OutboundRequest → SendResult) :
    (forward_request state method path headers body send).2 =
      { method := (reqwestMethodFromBytes method).getD "GET",
        url := trimEndSlashes state.ollama_url ++ "/v1/" ++ path,
        headers := outboundHeaders headers,
        body := body } := by
  simp only [forward_request]
  split <;> rfl

/-- The client-facing response when the upstream round trip succeeds. -/
theorem forward_request_fst_ok (state : AppState) (method path : String)
    (headers : Headers) (body : Bytes) (send : OutboundRequest → SendResult)
    (r : UpstreamOk) (hsend : ∀ q, send q = SendResult.ok r) :
    (forward_request state method path headers body send).1 =
      if r.assemblyOk then
        { status := (statusFromU16 r.status).getD 200,
          headers := textHeaders r.headers,
          body := r.bodyRead.getD [] }
      else { status := 500, headers := [], body := [] } := by
  simp only [forward_request, hsend]

/-- The client-facing response on a transport failure. -/
theorem forward_request_fst_err (state : AppState) (method path : String)
    (headers : Headers) (body : Bytes) (send : OutboundRequest → SendResult)
    (hsend : ∀ q, send q = SendResult.err) :
    (forward_request state method path headers body send).1 =
      { status := 502, headers := [],
        body := strBytes "Upstream request failed" } := by
  simp only [forward_request, hsend]

/-- Every text-valued upstream header survives the response-header copy. -/
theorem mem_textHeaders (hs : Headers) (n v : String)
    (h : (n, HVal.text v) ∈ hs) : (n, v) ∈ textHeaders hs := by
  exact List.mem_filterMap.mpr ⟨(n, HVal.text v), h, rfl⟩

/-- No outbound header is named `host` or `authorization`
(case-insensitively). -/
theorem outboundHeaders_no_excluded (hs : Headers) :
    ∀ p ∈ outboundHeaders hs,
      lowerName p.1 ≠ "host" ∧ lowerName p.1 ≠ "authorization" := by
  intro p hp
  obtain ⟨a, -, ha⟩ := List.mem_filterMap.mp hp
  by_cases hcond : (lowerName a.1 == "host" || lowerName a.1 == "authorization") = true
  · rw [if_pos hcond] at ha
    exact absurd ha (by simp)
  · rw [if_neg hcond] at ha
    cases hv : a.2.toStr with
    | none => rw [hv] at ha; exact absurd ha (by simp)
    | some v =>
        rw [hv] at ha
        simp only [Option.map_some'] at ha
        cases ha
        simpa using hcond

/-- Every inbound header other than `host`/`authorization` whose value is
text-representable is copied to the outbound request. -/
theorem outboundHeaders_complete (hs : Headers) (n v : String)
    (h : (n, HVal.text v) ∈ hs)
    (hh : lowerName n ≠ "host") (ha : lowerName n ≠ "authorization") :
    (n, v) ∈ outboundHeaders hs := by
  refine List.mem_filterMap.mpr ⟨(n, HVal.text v), h, ?_⟩
  have hh2 : (lowerName n == "host") = false := by simpa using hh
  have ha2 : (lowerName n == "authorization") = false := by simpa using ha
  simp [hh2, ha2, HVal.toStr]

/-! ### Concrete instances used by counterexamples and witnesses -/

/-- A concrete state: one configured key, default upstream URL. -/
def demoState : AppState :=
  { valid_keys := ["secret"], ollama_url := "http://127.0.0.1:11434" }

/-- A transport oracle on which every dispatch fails. -/
def demoSendErr : OutboundRequest → SendResult := fun _ => SendResult.err

/-- An upstream that replies 200 with a response body larger than the
inbound cap, reads and assembly succeeding. -/
def demoSendBig : OutboundRequest → SendResult := fun _ =>
  SendResult.ok { status := 200,
                  headers := [("content-type", HVal.text "application/json"),
                              ("x-raw", HVal.bin)],
                  bodyRead := some (List.replicate (bodyLimit + 1) 1),
                  assemblyOk := true }

/-- An upstream that replies with its own 404 error page. -/
def demoSend404 : OutboundRequest → SendResult := fun _ =>
  SendResult.ok { status := 404, headers := [],
                  bodyRead := some (strBytes "not found"), assemblyOk := true }

/-- An upstream whose reply carries an unrepresentable status code. -/
def demoSendStatus0 : OutboundRequest → SendResult := fun _ =>
  SendResult.ok { status := 0, headers := [],
                  bodyRead := some [], assemblyOk := true }

/-- An upstream round trip after which response assembly fails. -/
def demoSendAsmFail : OutboundRequest → SendResult := fun _ =>
  SendResult.ok { status := 200, headers := [],
                  bodyRead := some [], assemblyOk := false }

/-- An upstream round trip after which reading the response body fails. -/
def demoSendNoBody : OutboundRequest → SendResult := fun _ =>
  SendResult.ok { status := 200, headers := [("x-id", HVal.text "7")],
                  bodyRead := none, assemblyOk := true }

/-! ### Claims -/

/-- C1 counterexample: an inbound request with NO authorization header but
a body one byte over the 8 MiB cap is answered with status 400 ("Failed
to read body"), not the 401 the claim requires for every request lacking
the header: the body is buffered before the bearer check (proxy.rs 19-23
run before 26-36). -/
theorem C1_oversize_counterexample :
    (proxy_handler demoState
        { method := "POST", path := "chat", headers := [],
          body := List.replicate (bodyLimit + 1) 0 } demoSendErr).1.status = 400 ∧
    (proxy_handler demoState
        { method := "POST", path := "chat", headers := [],
          body := List.replicate (bodyLimit + 1) 0 } demoSendErr).1.status ≠ 401 := by
  have h : proxy_handler demoState
      { method := "POST", path := "chat", headers := [],
        body := List.replicate (bodyLimit + 1) 0 } demoSendErr =
      (badRequestResponse, []) :=
    proxy_handler_oversize _ _ _
      (by show bodyLimit < (List.replicate (bodyLimit + 1) (0 : Nat)).length
          rw [List.length_replicate]; omega)
  rw [h]
  exact ⟨rfl, by decide⟩

/-- C1 (amended): for every inbound request whose body is WITHIN the
8 MiB cap and whose authorization header is absent, not text-decodable,
not prefixed by "Bearer " (single space, case-sensitive), or whose
extracted key is not an exact member of the configured key set
(in particular whenever the key set is empty), the response is the fixed
401 plain-text "Unauthorized" one and no outbound call is made.
(A body over the cap is instead answered 400 before the bearer check.) -/
theorem C1_auth_reject (state : AppState) (req : InboundRequest)
    (send : OutboundRequest → SendResult)
    (hbody : req.body.length ≤ bodyLimit)
    (hauth : ∀ k ∈ state.valid_keys, bearerKey req.headers ≠ some k) :
    proxy_handler state req send = (unauthorizedResponse, []) :=
  proxy_handler_reject state req send hbody hauth

/-- C1 witness: a concrete request carrying a wrong bearer key is
rejected with the fixed 401 response and an empty dispatch trace. -/
theorem C1_auth_reject_witness :
    (([] : Bytes).length ≤ bodyLimit) ∧
    (∀ k ∈ demoState.valid_keys,
      bearerKey [("Authorization", HVal.text "Bearer wrong")] ≠ some k) ∧
    proxy_handler demoState
      { method := "GET", path := "models",
        headers := [("Authorization", HVal.text "Bearer wrong")], body := [] }
      demoSendErr = (unauthorizedResponse, []) :=
  ⟨by decide, by decide,
   C1_auth_reject demoState
     { method := "GET", path := "models",
       headers := [("Authorization", HVal.text "Bearer wrong")], body := [] }
     demoSendErr (by decide) (by decide)⟩

/-- C5: a valid-key request whose body is exactly 8 MiB is buffered and
forwarded (the outbound body is the inbound one); a request whose body is
one byte over the cap is answered 400 ("Failed to read body") with no
outbound call. -/
theorem C5_body_size_limit (state : AppState) (req1 req2 : InboundRequest)
    (send : OutboundRequest → SendResult) (k : String)
    (h1 : req1.body.length = bodyLimit)
    (hkey : bearerKey req1.headers = some k)
    (hmem : k ∈ state.valid_keys)
    (h2 : req2.body.length = bodyLimit + 1) :
    (∃ out : OutboundRequest,
      (proxy_handler state req1 send).2 = [out] ∧ out.body = req1.body) ∧
    proxy_handler state req2 send = (badRequestResponse, []) := by
  constructor
  · refine ⟨(forward_request state req1.method req1.path req1.headers
        req1.body send).2, ?_, ?_⟩
    · rw [proxy_handler_authorized state req1 send k (le_of_eq h1) hkey hmem]
    · rw [forward_request_snd]
  · have h : toBytesLimited req2.body bodyLimit = none :=
      toBytesLimited_of_gt (by omega)
    simp [proxy_handler, h]

/-- C5 witness: a concrete 8 MiB body is forwarded; a concrete
8 MiB + 1 body is rejected with 400 and no dispatch. -/
theorem C5_body_size_limit_witness :
    (List.replicate bodyLimit 0).length = bodyLimit ∧
    bearerKey [("authorization", HVal.text "Bearer secret")] = some "secret" ∧
    "secret" ∈ demoState.valid_keys ∧
    (List.replicate (bodyLimit + 1) 0).length = bodyLimit + 1 ∧
    ((∃ out : OutboundRequest,
        (proxy_handler demoState
          { method := "POST", path := "embed",
            headers := [("authorization", HVal.text "Bearer secret")],
            body := List.replicate bodyLimit 0 } demoSendErr).2 = [out] ∧
        out.body = List.replicate bodyLimit 0) ∧
      proxy_handler demoState
        { method := "POST", path := "embed", headers := [],
          body := List.replicate (bodyLimit + 1) 0 } demoSendErr =
        (badRequestResponse, [])) :=
  ⟨by simp, by decide, by decide, by simp,
   C5_body_size_limit demoState
     { method := "POST", path := "embed",
       headers := [("authorization", HVal.text "Bearer secret")],
       body := List.replicate bodyLimit 0 }
     { method := "POST", path := "embed", headers := [],
       body := List.replicate (bodyLimit + 1) 0 }
     demoSendErr "secret" (by simp) (by decide) (by decide) (by simp)⟩

/-- C2: on a valid-key request within the body cap, exactly one outbound
request is dispatched; under the data-model invariant that the base URL
carries no trailing slash and with the inbound method a valid HTTP token
(which the serving framework's method type guarantees), its target URL is
`upstreamBaseURL ++ "/v1/" ++ pathSuffix`, its method is the inbound
method, and its body is the inbound body byte-for-byte. -/
theorem C2_forward_shape (state : AppState) (req : InboundRequest)
    (send : OutboundRequest → SendResult) (k : String)
    (hbody : req.body.length ≤ bodyLimit)
    (hkey : bearerKey req.headers = some k)
    (hmem : k ∈ state.valid_keys)
    (hbase : trimEndSlashes state.ollama_url = state.ollama_url)
    (hmethod : reqwestMethodFromBytes req.method = some req.method) :
    ∃ out : OutboundRequest,
      (proxy_handler state req send).2 = [out] ∧
      out.url = state.ollama_url ++ "/v1/" ++ req.path ∧
      out.method = req.method ∧
      out.body = req.body := by
  refine ⟨(forward_request state req.method req.path req.headers
      req.body send).2, ?_, ?_, ?_, ?_⟩
  · rw [proxy_handler_authorized state req send k hbody hkey hmem]
  · rw [forward_request_snd]
    simp [hbase]
  · rw [forward_request_snd]
    simp [hmethod]
  · rw [forward_request_snd]

/-- C2 witness: a concrete valid-key POST is forwarded to
`http://127.0.0.1:11434/v1/chat/completions` with its method and body. -/
theorem C2_forward_shape_witness :
    ([104, 101, 108, 108, 111] : Bytes).length ≤ bodyLimit ∧
    bearerKey [("authorization", HVal.text "Bearer secret")] = some "secret" ∧
    "secret" ∈ demoState.valid_keys ∧
    trimEndSlashes demoState.ollama_url = demoState.ollama_url ∧
    reqwestMethodFromBytes "POST" = some "POST" ∧
    (∃ out : OutboundRequest,
      (proxy_handler demoState
        { method := "POST", path := "chat/completions",
          headers := [("authorization", HVal.text "Bearer secret")],
          body := [104, 101, 108, 108, 111] } demoSendBig).2 = [out] ∧
      out.url = demoState.ollama_url ++ "/v1/" ++ "chat/completions" ∧
      out.method = "POST" ∧
      out.body = [104, 101, 108, 108, 111]) :=
  ⟨by decide, by decide, by decide, by decide, by decide,
   C2_forward_shape demoState
     { method := "POST", path := "chat/completions",
       headers := [("authorization", HVal.text "Bearer secret")],
       body := [104, 101, 108, 108, 111] }
     demoSendBig "secret" (by decide) (by decide)
     (by decide) (by decide) (by decide)⟩

/-- C3: on a valid-key request within the body cap, the single dispatched
outbound request carries no header named `host` or `authorization`
(case-insensitively), carries every other inbound header whose value is
text-representable, and non-text values are dropped without aborting the
dispatch (the call is still made). -/
theorem C3_header_filtering (state : AppState) (req : InboundRequest)
    (send : OutboundRequest → SendResult) (k : String)
    (hbody : req.body.length ≤ bodyLimit)
    (hkey : bearerKey req.headers = some k)
    (hmem : k ∈ state.valid_keys) :
    ∃ out : OutboundRequest,
      (proxy_handler state req send).2 = [out] ∧
      (∀ p ∈ out.headers,
        lowerName p.1 ≠ "host" ∧ lowerName p.1 ≠ "authorization") ∧
      (∀ n v, (n, HVal.text v) ∈ req.headers → lowerName n ≠ "host" →
        lowerName n ≠ "authorization" → (n, v) ∈ out.headers) := by
  refine ⟨(forward_request state req.method req.path req.headers
      req.body send).2, ?_, ?_, ?_⟩
  · rw [proxy_handler_authorized state req send k hbody hkey hmem]
  · rw [forward_request_snd]
    exact outboundHeaders_no_excluded req.headers
  · rw [forward_request_snd]
    intro n v hv hh ha
    exact outboundHeaders_complete req.headers n v hv hh ha

/-- C3 witness: a concrete request carrying `Host`, `authorization`, a
text header and a binary header is dispatched with only the text header
guaranteed present and neither excluded name. -/
theorem C3_header_filtering_witness :
    (([] : Bytes)).length ≤ bodyLimit ∧
    bearerKey [("Host", HVal.text "proxy.local"),
               ("authorization", HVal.text "Bearer secret"),
               ("x-request-id", HVal.text "42"),
               ("x-blob", HVal.bin)] = some "secret" ∧
    "secret" ∈ demoState.valid_keys ∧
    (∃ out : OutboundRequest,
      (proxy_handler demoState
        { method := "GET", path := "models",
          headers := [("Host", HVal.text "proxy.local"),
                      ("authorization", HVal.text "Bearer secret"),
                      ("x-request-id", HVal.text "42"),
                      ("x-blob", HVal.bin)],
          body := [] } demoSend404).2 = [out] ∧
      (∀ p ∈ out.headers,
        lowerName p.1 ≠ "host" ∧ lowerName p.1 ≠ "authorization") ∧
      (∀ n v,
        (n, HVal.text v) ∈
          ([("Host", HVal.text "proxy.local"),
            ("authorization", HVal.text "Bearer secret"),
            ("x-request-id", HVal.text "42"),
            ("x-blob", HVal.bin)] : Headers) → lowerName n ≠ "host" →
        lowerName n ≠ "authorization" → (n, v) ∈ out.headers)) :=
  ⟨by decide, by decide, by decide,
   C3_header_filtering demoState
     { method := "GET", path := "models",
       headers := [("Host", HVal.text "proxy.local"),
                   ("authorization", HVal.text "Bearer secret"),
                   ("x-request-id", HVal.text "42"),
                   ("x-blob", HVal.bin)],
       body := [] }
     demoSend404 "secret" (by decide) (by decide) (by decide)⟩

/-- C4: whenever the upstream round trip succeeds with an (in-range)
status S, headers H and body read B, and response assembly succeeds, the
client-facing response has status S, body exactly B, and includes every
header of H whose value is text-representable; B is not subject to the
8 MiB inbound cap (the theorem holds for bodies of any length). -/
theorem C4_upstream_relay (state : AppState) (method path : String)
    (headers : Headers) (body : Bytes) (S : Nat) (H : Headers) (B : Bytes)
    (send : OutboundRequest → SendResult)
    (hS : 100 ≤ S ∧ S < 1000)
    (hsend : ∀ q, send q = SendResult.ok
      { status := S, headers := H, bodyRead := some B, assemblyOk := true }) :
    (forward_request state method path headers body send).1.status = S ∧
    (forward_request state method path headers body send).1.body = B ∧
    ∀ n v, (n, HVal.text v) ∈ H →
      (n, v) ∈ (forward_request state method path headers body send).1.headers := by
  have hstat : statusFromU16 S = some S := by simp [statusFromU16, hS.1, hS.2]
  have h := forward_request_fst_ok state method path headers body send
    { status := S, headers := H, bodyRead := some B, assemblyOk := true } hsend
  simp only [hstat, Option.getD_some, if_true] at h
  refine ⟨by rw [h], by rw [h], ?_⟩
  intro n v hv
  rw [h]
  exact mem_textHeaders H n v hv

/-- C4 witness: a concrete 200 reply whose body is one byte longer than
the inbound cap is relayed whole, with its text header included. -/
theorem C4_upstream_relay_witness :
    (100 ≤ 200 ∧ 200 < 1000) ∧
    (∀ q, demoSendBig q = SendResult.ok
      { status := 200,
        headers := [("content-type", HVal.text "application/json"),
                    ("x-raw", HVal.bin)],
        bodyRead := some (List.replicate (bodyLimit + 1) 1),
        assemblyOk := true }) ∧
    ((forward_request demoState "GET" "models" [] [] demoSendBig).1.status = 200 ∧
     (forward_request demoState "GET" "models" [] [] demoSendBig).1.body =
       List.replicate (bodyLimit + 1) 1 ∧
     ∀ n v, (n, HVal.text v) ∈
         ([("content-type", HVal.text "application/json"),
           ("x-raw", HVal.bin)] : Headers) →
       (n, v) ∈ (forward_request demoState "GET" "models" [] [] demoSendBig).1.headers) :=
  ⟨by decide, fun _ => rfl,
   C4_upstream_relay demoState "GET" "models" [] [] 200
     [("content-type", HVal.text "application/json"), ("x-raw", HVal.bin)]
     (List.replicate (bodyLimit + 1) 1) demoSendBig (by decide) (fun _ => rfl)⟩

/-- C6: when the outbound dispatch ends in a transport-level failure, the
client-facing response is exactly 502 with the fixed body "Upstream
request failed"; whereas an upstream HTTP error status (its own 404, say)
is a successful round trip whose status is relayed, not replaced. -/
theorem C6_transport_failure (state : AppState) (method path : String)
    (headers : Headers) (body : Bytes)
    (send sendOk : OutboundRequest → SendResult) (r : UpstreamOk)
    (herr : ∀ q, send q = SendResult.err)
    (hok : ∀ q, sendOk q = SendResult.ok r)
    (hS : 100 ≤ r.status ∧ r.status < 1000) (hasm : r.assemblyOk = true) :
    (forward_request state method path headers body send).1 =
      { status := 502, headers := [],
        body := strBytes "Upstream request failed" } ∧
    (forward_request state method path headers body sendOk).1.status = r.status := by
  constructor
  · exact forward_request_fst_err state method path headers body send herr
  · have h := forward_request_fst_ok state method path headers body sendOk r hok
    rw [h, if_pos hasm]
    simp [statusFromU16, hS.1, hS.2]

/-- C6 witness: a concrete failing transport yields the fixed 502; a
concrete upstream 404 is relayed as 404. -/
theorem C6_transport_failure_witness :
    (∀ q, demoSendErr q = SendResult.err) ∧
    (∀ q, demoSend404 q = SendResult.ok
      { status := 404, headers := [],
        bodyRead := some (strBytes "not found"), assemblyOk := true }) ∧
    (100 ≤ 404 ∧ 404 < 1000) ∧
    ((forward_request demoState "GET" "models" [] [] demoSendErr).1 =
      { status := 502, headers := [],
        body := strBytes "Upstream request failed" } ∧
     (forward_request demoState "GET" "models" [] [] demoSend404).1.status = 404) :=
  ⟨fun _ => rfl, fun _ => rfl, by decide,
   C6_transport_failure demoState "GET" "models" [] [] demoSendErr demoSend404
     { status := 404, headers := [],
       bodyRead := some (strBytes "not found"), assemblyOk := true }
     (fun _ => rfl) (fun _ => rfl) (by decide) rfl⟩

/-- C7: lenient degradation, two independent universal properties.
First: for EVERY request whose inbound method is not representable as an
outbound method token, the dispatched request carries GET instead —
whatever the upstream then does.  Second: for EVERY request (any method)
whose upstream reply carries a status outside the representable range
(assembly succeeding), the client-facing status is 200 — in neither case
does the request fail. -/
theorem C7_lenient_fallbacks :
    (∀ (state : AppState) (method path : String) (headers : Headers)
        (body : Bytes) (send : OutboundRequest → SendResult),
      reqwestMethodFromBytes method = none →
      (forward_request state method path headers body send).2.method = "GET") ∧
    (∀ (state : AppState) (method path : String) (headers : Headers)
        (body : Bytes) (send : OutboundRequest → SendResult) (r : UpstreamOk),
      (∀ q, send q = SendResult.ok r) → statusFromU16 r.status = none →
      r.assemblyOk = true →
      (forward_request state method path headers body send).1.status = 200) := by
  constructor
  · intro state method path headers body send hm
    rw [forward_request_snd]
    simp [hm]
  · intro state method path headers body send r hsend hS hasm
    have h := forward_request_fst_ok state method path headers body send r hsend
    rw [h, if_pos hasm]
    simp [hS]

/-- C7 witness: the non-token method "BAD METHOD" goes out as GET even on
a dispatch that fails in transport, and an upstream status 0 received by
a valid-method GET request comes back to the client as 200. -/
theorem C7_lenient_fallbacks_witness :
    reqwestMethodFromBytes "BAD METHOD" = none ∧
    (forward_request demoState "BAD METHOD" "models" [] [] demoSendErr).2.method
        = "GET" ∧
    (∀ q, demoSendStatus0 q = SendResult.ok
      { status := 0, headers := [], bodyRead := some [], assemblyOk := true }) ∧
    statusFromU16 0 = none ∧
    (forward_request demoState "GET" "models" [] [] demoSendStatus0).1.status
        = 200 :=
  ⟨by decide,
   C7_lenient_fallbacks.1 demoState "BAD METHOD" "models" [] [] demoSendErr
     (by decide),
   fun _ => rfl, by decide,
   C7_lenient_fallbacks.2 demoState "GET" "models" [] [] demoSendStatus0
     { status := 0, headers := [], bodyRead := some [], assemblyOk := true }
     (fun _ => rfl) (by decide) rfl⟩

/-- C9: when the upstream round trip succeeds but assembling the
client-facing response fails, the client receives 500 with an empty body
(the `unwrap_or_else` fallback of proxy.rs 76-81). -/
theorem C9_assembly_failure (state : AppState) (method path : String)
    (headers : Headers) (body : Bytes)
    (send : OutboundRequest → SendResult) (r : UpstreamOk)
    (hsend : ∀ q, send q = SendResult.ok r) (hasm : r.assemblyOk = false) :
    (forward_request state method path headers body send).1 =
      { status := 500, headers := [], body := [] } := by
  rw [forward_request_fst_ok state method path headers body send r hsend,
    if_neg (by simp [hasm])]

/-- C9 witness: a concrete round trip with failing assembly yields the
500 empty-body fallback. -/
theorem C9_assembly_failure_witness :
    (∀ q, demoSendAsmFail q = SendResult.ok
      { status := 200, headers := [], bodyRead := some [], assemblyOk := false }) ∧
    (forward_request demoState "GET" "models" [] [] demoSendAsmFail).1 =
      { status := 500, headers := [], body := [] } :=
  ⟨fun _ => rfl,
   C9_assembly_failure demoState "GET" "models" [] [] demoSendAsmFail
     { status := 200, headers := [], bodyRead := some [], assemblyOk := false }
     (fun _ => rfl) rfl⟩

/-- C10 (implicit): when the upstream round trip succeeds with an
(in-range) status S but reading the upstream body fails, the client still
receives status S with an empty body (`unwrap_or_default` on the bytes),
and the text-representable upstream headers; the read failure is not
turned into an error status. -/
theorem C10_body_read_failure (state : AppState) (method path : String)
    (headers : Headers) (body : Bytes) (S : Nat) (H : Headers)
    (send : OutboundRequest → SendResult)
    (hS : 100 ≤ S ∧ S < 1000)
    (hsend : ∀ q, send q = SendResult.ok
      { status := S, headers := H, bodyRead := none, assemblyOk := true }) :
    (forward_request state method path headers body send).1.status = S ∧
    (forward_request state method path headers body send).1.body = [] := by
  have hstat : statusFromU16 S = some S := by simp [statusFromU16, hS.1, hS.2]
  have h := forward_request_fst_ok state method path headers body send
    { status := S, headers := H, bodyRead := none, assemblyOk := true } hsend
  simp only [hstat, Option.getD_some, Option.getD_none, if_true] at h
  exact ⟨by rw [h], by rw [h]⟩

/-- C10 witness: a concrete 200 reply whose body read fails is relayed as
200 with an empty body. -/
theorem C10_body_read_failure_witness :
    (100 ≤ 200 ∧ 200 < 1000) ∧
    (∀ q, demoSendNoBody q = SendResult.ok
      { status := 200, headers := [("x-id", HVal.text "7")],
        bodyRead := none, assemblyOk := true }) ∧
    ((forward_request demoState "GET" "models" [] [] demoSendNoBody).1.status = 200 ∧
     (forward_request demoState "GET" "models" [] [] demoSendNoBody).1.body = []) :=
  ⟨by decide, fun _ => rfl,
   C10_body_read_failure demoState "GET" "models" [] [] 200
     [("x-id", HVal.text "7")] demoSendNoBody (by decide) (fun _ => rfl)⟩

/-- Loader oracles and a concrete override record supplying BOTH a key
file and an explicit key list. -/
def demoLoadSqlite : String → List String := fun _ => ["dbkey"]

/-- File loader oracle: every path resolves to `["filekey"]`. -/
def demoLoadFile : String → List String := fun _ => ["filekey"]

/-- Overrides with a key file and an explicit list supplied together. -/
def demoOverrides : ConfigOverrides :=
  { api_keys_sqlite := none, api_keys_file := some "keys.txt",
    api_keys := some ["k1", "k2"] }

/-- C8: with both `--api-keys-file` and `--api-keys` supplied,
`apply_overrides` installs the file-provided keys, not the explicit
list: the implemented precedence is sqlite > file > explicit
(config.rs 112-120), contradicting the documented precedence in which
the explicit list "overrides all other sources" (main.rs 22). -/
theorem C8_precedence_code_behavior :
    apply_overrides_keys demoLoadSqlite demoLoadFile [] demoOverrides
      = ["filekey"] ∧
    apply_overrides_keys demoLoadSqlite demoLoadFile [] demoOverrides
      ≠ ["k1", "k2"] := by
  exact ⟨rfl, by decide⟩
